import Mathlib

/-!
Verification of the constants module `custom_components/tuya_ble/tuya_ble/const.py`
of the `ha-tuya-ble` integration, together with a frame codec modelled from the
specification (the codec itself is not part of the supplied source).

Python constants are embedded as Lean constants of the same names; Python `Enum`
classes are embedded both as Lean inductive types with their integer `value`
functions and as declaration-order lists of `(member name, value)` pairs, which
mirror the source line by line and let us reason about Python's enum semantics
(declaration order, aliasing of duplicate values, value lookup).
-/

namespace TuyaBLE

/-- `GATT_MTU = 20` from const.py line 5. -/
def GATT_MTU : Nat := 20

/-- `DEFAULT_ATTEMPTS = 0xFFFF` from const.py line 7. -/
def DEFAULT_ATTEMPTS : Nat := 0xFFFF

/-- `CHARACTERISTIC_NOTIFY` from const.py line 9. -/
def CHARACTERISTIC_NOTIFY : String := "00002b10-0000-1000-8000-00805f9b34fb"

/-- `CHARACTERISTIC_WRITE` from const.py line 10. -/
def CHARACTERISTIC_WRITE : String := "00002b11-0000-1000-8000-00805f9b34fb"

/-- `SERVICE_UUID` from const.py line 12. -/
def SERVICE_UUID : String := "0000a201-0000-1000-8000-00805f9b34fb"

/-- `MANUFACTURER_DATA_ID = 0x07D0` from const.py line 14. -/
def MANUFACTURER_DATA_ID : Nat := 0x07D0

/-- `RESPONSE_WAIT_TIMEOUT = 60` from const.py line 16. -/
def RESPONSE_WAIT_TIMEOUT : Nat := 60

/-- The standard Bluetooth base UUID suffix shared by all three UUID constants. -/
def BLUETOOTH_BASE_SUFFIX : String := "-0000-1000-8000-00805f9b34fb"

/-- `hasPre p s` holds when the string `s` begins with the string `p`
(a kernel-computable rendering of Python's `str.startswith`). -/
def hasPre (p s : String) : Bool := decide (s.toList.take p.length = p.toList)

/-- The members of the Python `Enum` class `TuyaBLECode` (const.py lines 51-76),
as an inductive type, one constructor per member in declaration order. -/
inductive TuyaBLECode where
  | FUN_SENDER_DEVICE_INFO
  | FUN_SENDER_PAIR
  | FUN_SENDER_DPS
  | FUN_SENDER_DEVICE_STATUS
  | FUN_SENDER_UNBIND
  | FUN_SENDER_DEVICE_RESET
  | FUN_SENDER_OTA_START
  | FUN_SENDER_OTA_FILE
  | FUN_SENDER_OTA_OFFSET
  | FUN_SENDER_OTA_UPGRADE
  | FUN_SENDER_OTA_OVER
  | FUN_SENDER_DPS_V4
  | FUN_RECEIVE_DP
  | FUN_RECEIVE_TIME_DP
  | FUN_RECEIVE_SIGN_DP
  | FUN_RECEIVE_SIGN_TIME_DP
  | FUN_RECEIVE_DP_V4
  | FUN_RECEIVE_TIME_DP_V4
  | FUN_RECEIVE_TIME1_REQ
  | FUN_RECEIVE_TIME2_REQ
  deriving DecidableEq, Fintype, Repr

namespace TuyaBLECode

/-- The integer value assigned to each `TuyaBLECode` member in const.py lines 51-76. -/
def value : TuyaBLECode → Nat
  | FUN_SENDER_DEVICE_INFO => 0x0000
  | FUN_SENDER_PAIR => 0x0001
  | FUN_SENDER_DPS => 0x0002
  | FUN_SENDER_DEVICE_STATUS => 0x0003
  | FUN_SENDER_UNBIND => 0x0005
  | FUN_SENDER_DEVICE_RESET => 0x0006
  | FUN_SENDER_OTA_START => 0x000C
  | FUN_SENDER_OTA_FILE => 0x000D
  | FUN_SENDER_OTA_OFFSET => 0x000E
  | FUN_SENDER_OTA_UPGRADE => 0x000F
  | FUN_SENDER_OTA_OVER => 0x0010
  | FUN_SENDER_DPS_V4 => 0x0027
  | FUN_RECEIVE_DP => 0x8001
  | FUN_RECEIVE_TIME_DP => 0x8003
  | FUN_RECEIVE_SIGN_DP => 0x8004
  | FUN_RECEIVE_SIGN_TIME_DP => 0x8005
  | FUN_RECEIVE_DP_V4 => 0x8006
  | FUN_RECEIVE_TIME_DP_V4 => 0x8007
  | FUN_RECEIVE_TIME1_REQ => 0x8011
  | FUN_RECEIVE_TIME2_REQ => 0x8012

/-- The Python member name of each `TuyaBLECode` member. -/
def name : TuyaBLECode → String
  | FUN_SENDER_DEVICE_INFO => "FUN_SENDER_DEVICE_INFO"
  | FUN_SENDER_PAIR => "FUN_SENDER_PAIR"
  | FUN_SENDER_DPS => "FUN_SENDER_DPS"
  | FUN_SENDER_DEVICE_STATUS => "FUN_SENDER_DEVICE_STATUS"
  | FUN_SENDER_UNBIND => "FUN_SENDER_UNBIND"
  | FUN_SENDER_DEVICE_RESET => "FUN_SENDER_DEVICE_RESET"
  | FUN_SENDER_OTA_START => "FUN_SENDER_OTA_START"
  | FUN_SENDER_OTA_FILE => "FUN_SENDER_OTA_FILE"
  | FUN_SENDER_OTA_OFFSET => "FUN_SENDER_OTA_OFFSET"
  | FUN_SENDER_OTA_UPGRADE => "FUN_SENDER_OTA_UPGRADE"
  | FUN_SENDER_OTA_OVER => "FUN_SENDER_OTA_OVER"
  | FUN_SENDER_DPS_V4 => "FUN_SENDER_DPS_V4"
  | FUN_RECEIVE_DP => "FUN_RECEIVE_DP"
  | FUN_RECEIVE_TIME_DP => "FUN_RECEIVE_TIME_DP"
  | FUN_RECEIVE_SIGN_DP => "FUN_RECEIVE_SIGN_DP"
  | FUN_RECEIVE_SIGN_TIME_DP => "FUN_RECEIVE_SIGN_TIME_DP"
  | FUN_RECEIVE_DP_V4 => "FUN_RECEIVE_DP_V4"
  | FUN_RECEIVE_TIME_DP_V4 => "FUN_RECEIVE_TIME_DP_V4"
  | FUN_RECEIVE_TIME1_REQ => "FUN_RECEIVE_TIME1_REQ"
  | FUN_RECEIVE_TIME2_REQ => "FUN_RECEIVE_TIME2_REQ"

/-- All members of `TuyaBLECode` in declaration order (const.py lines 51-76). -/
def allCodes : List TuyaBLECode :=
  [FUN_SENDER_DEVICE_INFO, FUN_SENDER_PAIR, FUN_SENDER_DPS, FUN_SENDER_DEVICE_STATUS,
   FUN_SENDER_UNBIND, FUN_SENDER_DEVICE_RESET,
   FUN_SENDER_OTA_START, FUN_SENDER_OTA_FILE, FUN_SENDER_OTA_OFFSET,
   FUN_SENDER_OTA_UPGRADE, FUN_SENDER_OTA_OVER,
   FUN_SENDER_DPS_V4,
   FUN_RECEIVE_DP, FUN_RECEIVE_TIME_DP, FUN_RECEIVE_SIGN_DP, FUN_RECEIVE_SIGN_TIME_DP,
   FUN_RECEIVE_DP_V4, FUN_RECEIVE_TIME_DP_V4,
   FUN_RECEIVE_TIME1_REQ, FUN_RECEIVE_TIME2_REQ]

/-- Python's value-to-member lookup `TuyaBLECode(v)`: the member whose `value` is `v`,
if any (the enum has no duplicate values, so the first match is the only match). -/
def ofValue (v : Nat) : Option TuyaBLECode :=
  allCodes.find? (fun c => c.value = v)

end TuyaBLECode

/-- Declaration-order list of `(member name, integer value)` pairs of `TuyaBLECode`,
mirroring const.py lines 51-76. -/
def tuyaBLECodeMembers : List (String × Nat) :=
  TuyaBLECode.allCodes.map (fun c => (c.name, c.value))

example : TuyaBLECode.ofValue 0x8012 = some TuyaBLECode.FUN_RECEIVE_TIME2_REQ := by decide

example : hasPre "FUN_SENDER_" "FUN_SENDER_PAIR" = true := by decide

example : ∀ m ∈ tuyaBLECodeMembers,
    hasPre "FUN_SENDER_" m.1 = true → m.2 ≤ 0x27 := by decide

/-- The members of the Python `Enum` class `TuyaBLEDataPointType`
(const.py lines 92-97), one constructor per member in declaration order. -/
inductive TuyaBLEDataPointType where
  | DT_RAW
  | DT_BOOL
  | DT_VALUE
  | DT_STRING
  | DT_ENUM
  | DT_BITMAP
  deriving DecidableEq, Fintype, Repr

namespace TuyaBLEDataPointType

/-- The integer value assigned to each `TuyaBLEDataPointType` member
in const.py lines 92-97. -/
def value : TuyaBLEDataPointType → Nat
  | DT_RAW => 0
  | DT_BOOL => 1
  | DT_VALUE => 2
  | DT_STRING => 3
  | DT_ENUM => 4
  | DT_BITMAP => 5

/-- The Python member name of each `TuyaBLEDataPointType` member. -/
def name : TuyaBLEDataPointType → String
  | DT_RAW => "DT_RAW"
  | DT_BOOL => "DT_BOOL"
  | DT_VALUE => "DT_VALUE"
  | DT_STRING => "DT_STRING"
  | DT_ENUM => "DT_ENUM"
  | DT_BITMAP => "DT_BITMAP"

/-- All members of `TuyaBLEDataPointType` in declaration order. -/
def allDataPointTypes : List TuyaBLEDataPointType :=
  [DT_RAW, DT_BOOL, DT_VALUE, DT_STRING, DT_ENUM, DT_BITMAP]

end TuyaBLEDataPointType

/-- Declaration-order list of `(member name, string value)` pairs of the Python
`StrEnum` class `TuyaDataPointType` (const.py lines 392-397). -/
def tuyaDataPointTypeMembers : List (String × String) :=
  [("BOOLEAN", "Boolean"),
   ("ENUM", "Enum"),
   ("INTEGER", "Integer"),
   ("JSON", "Json"),
   ("RAW", "Raw"),
   ("STRING", "String")]

/-- Modelled from the spec: the data-point-type vocabulary §3 states every
data-point-type enumeration of the module exposes — exactly the six variants
Raw, Boolean, Integer(Value), String, Enum, Bitmap, here listed by
the spec variant names with Integer(Value) written Integer. -/
def specDataPointTypeVariants : List String :=
  ["Raw", "Boolean", "Integer", "String", "Enum", "Bitmap"]

/-- The spec variant name (in the vocabulary of `specDataPointTypeVariants`)
that each `TuyaBLEDataPointType` member denotes: DT_RAW is Raw, DT_BOOL is
Boolean, DT_VALUE is Integer(Value), DT_STRING is String, DT_ENUM is Enum,
DT_BITMAP is Bitmap. -/
def dtVariantName : TuyaBLEDataPointType → String
  | .DT_RAW => "Raw"
  | .DT_BOOL => "Boolean"
  | .DT_VALUE => "Integer"
  | .DT_STRING => "String"
  | .DT_ENUM => "Enum"
  | .DT_BITMAP => "Bitmap"

/-- Python `StrEnum` value lookup, e.g. `TuyaDataPointCode("filter")`: scan the
declaration-order member list and return the NAME of the first member whose
value is `v`.  When two declarations share a value, Python makes the later name
an alias of the earlier member, so this first-match scan is exactly Python's
lookup semantics. -/
def strEnumLookup (members : List (String × String)) (v : String) : Option String :=
  (members.find? (fun m => m.2 = v)).map Prod.fst

/-- The value assigned to declared name `n` in a Python `StrEnum` member list. -/
def strEnumValueOf (members : List (String × String)) (n : String) : Option String :=
  (members.find? (fun m => m.1 = n)).map Prod.snd

/-- The canonical member a declared name denotes under Python enum aliasing:
look up the name's assigned value, then resolve that value to the first member
declared with it (Python resolves `Enum.ALIAS` to the canonical member object). -/
def strEnumCanonical (members : List (String × String)) (n : String) : Option String :=
  (strEnumValueOf members n).bind (strEnumLookup members)

/-- Declaration-order list of `(member name, string value)` pairs of the Python
`StrEnum` class `TuyaDataPointCode` (const.py lines 106-386), mirroring the
source declaration by declaration. -/
def tuyaDataPointCodeMembers : List (String × String) := [
  ("AIR_QUALITY", "air_quality"),
  ("AIR_QUALITY_INDEX", "air_quality_index"),
  ("ALARM_SWITCH", "alarm_switch"),
  ("ALARM_TIME", "alarm_time"),
  ("ALARM_VOLUME", "alarm_volume"),
  ("ALARM_MESSAGE", "alarm_message"),
  ("ANGLE_HORIZONTAL", "angle_horizontal"),
  ("ANGLE_VERTICAL", "angle_vertical"),
  ("ANION", "anion"),
  ("ARM_DOWN_PERCENT", "arm_down_percent"),
  ("ARM_UP_PERCENT", "arm_up_percent"),
  ("BASIC_ANTI_FLICKER", "basic_anti_flicker"),
  ("BASIC_DEVICE_VOLUME", "basic_device_volume"),
  ("BASIC_FLIP", "basic_flip"),
  ("BASIC_INDICATOR", "basic_indicator"),
  ("BASIC_NIGHTVISION", "basic_nightvision"),
  ("BASIC_OSD", "basic_osd"),
  ("BASIC_PRIVATE", "basic_private"),
  ("BASIC_WDR", "basic_wdr"),
  ("BATTERY", "battery"),
  ("BATTERY_PERCENTAGE", "battery_percentage"),
  ("BATTERY_STATE", "battery_state"),
  ("BATTERY_VALUE", "battery_value"),
  ("BRIGHT_CONTROLLER", "bright_controller"),
  ("BRIGHT_STATE", "bright_state"),
  ("BRIGHT_VALUE", "bright_value"),
  ("BRIGHT_VALUE_1", "bright_value_1"),
  ("BRIGHT_VALUE_2", "bright_value_2"),
  ("BRIGHT_VALUE_3", "bright_value_3"),
  ("BRIGHT_VALUE_V2", "bright_value_v2"),
  ("BRIGHTNESS_MAX_1", "brightness_max_1"),
  ("BRIGHTNESS_MAX_2", "brightness_max_2"),
  ("BRIGHTNESS_MAX_3", "brightness_max_3"),
  ("BRIGHTNESS_MIN_1", "brightness_min_1"),
  ("BRIGHTNESS_MIN_2", "brightness_min_2"),
  ("BRIGHTNESS_MIN_3", "brightness_min_3"),
  ("C_F", "c_f"),
  ("CH2O_STATE", "ch2o_state"),
  ("CH2O_VALUE", "ch2o_value"),
  ("CH4_SENSOR_STATE", "ch4_sensor_state"),
  ("CH4_SENSOR_VALUE", "ch4_sensor_value"),
  ("CHILD_LOCK", "child_lock"),
  ("CISTERN", "cistern"),
  ("CLEAN_AREA", "clean_area"),
  ("CLEAN_TIME", "clean_time"),
  ("CLICK_SUSTAIN_TIME", "click_sustain_time"),
  ("CLOUD_RECIPE_NUMBER", "cloud_recipe_number"),
  ("CLOSED_OPENED_KIT", "closed_opened_kit"),
  ("CO_STATE", "co_state"),
  ("CO_STATUS", "co_status"),
  ("CO_VALUE", "co_value"),
  ("CO2_STATE", "co2_state"),
  ("CO2_VALUE", "co2_value"),
  ("COLLECTION_MODE", "collection_mode"),
  ("COLOR_DATA_V2", "color_data_v2"),
  ("COLOUR_DATA", "colour_data"),
  ("COLOUR_DATA_HSV", "colour_data_hsv"),
  ("COLOUR_DATA_V2", "colour_data_v2"),
  ("COOK_TEMPERATURE", "cook_temperature"),
  ("COOK_TIME", "cook_time"),
  ("CONCENTRATION_SET", "concentration_set"),
  ("CONTROL", "control"),
  ("CONTROL_2", "control_2"),
  ("CONTROL_3", "control_3"),
  ("CONTROL_BACK", "control_back"),
  ("CONTROL_BACK_MODE", "control_back_mode"),
  ("COUNTDOWN", "countdown"),
  ("COUNTDOWN_LEFT", "countdown_left"),
  ("COUNTDOWN_SET", "countdown_set"),
  ("CRY_DETECTION_SWITCH", "cry_detection_switch"),
  ("CUP_NUMBER", "cup_number"),
  ("CUR_CURRENT", "cur_current"),
  ("CUR_NEUTRAL", "cur_neutral"),
  ("CUR_POWER", "cur_power"),
  ("CUR_VOLTAGE", "cur_voltage"),
  ("DECIBEL_SENSITIVITY", "decibel_sensitivity"),
  ("DECIBEL_SWITCH", "decibel_switch"),
  ("DEHUMIDITY_SET_ENUM", "dehumidify_set_enum"),
  ("DEHUMIDITY_SET_VALUE", "dehumidify_set_value"),
  ("DISINFECTION", "disinfection"),
  ("DO_NOT_DISTURB", "do_not_disturb"),
  ("DOORCONTACT_STATE", "doorcontact_state"),
  ("DOORCONTACT_STATE_2", "doorcontact_state_2"),
  ("DOORCONTACT_STATE_3", "doorcontact_state_3"),
  ("DUSTER_CLOTH", "duster_cloth"),
  ("ECO2", "eco2"),
  ("EDGE_BRUSH", "edge_brush"),
  ("ELECTRICITY_LEFT", "electricity_left"),
  ("FAN_BEEP", "fan_beep"),
  ("FAN_COOL", "fan_cool"),
  ("FAN_DIRECTION", "fan_direction"),
  ("FAN_HORIZONTAL", "fan_horizontal"),
  ("FAN_SPEED", "fan_speed"),
  ("FAN_SPEED_ENUM", "fan_speed_enum"),
  ("FAN_SPEED_PERCENT", "fan_speed_percent"),
  ("FAN_SWITCH", "fan_switch"),
  ("FAN_MODE", "fan_mode"),
  ("FAN_VERTICAL", "fan_vertical"),
  ("FAR_DETECTION", "far_detection"),
  ("FAULT", "fault"),
  ("FEED_REPORT", "feed_report"),
  ("FEED_STATE", "feed_state"),
  ("FILTER", "filter"),
  ("FILTER_LIFE", "filter"),
  ("FILTER_RESET", "filter_reset"),
  ("FLOODLIGHT_LIGHTNESS", "floodlight_lightness"),
  ("FLOODLIGHT_SWITCH", "floodlight_switch"),
  ("FORWARD_ENERGY_TOTAL", "forward_energy_total"),
  ("GAS_SENSOR_STATE", "gas_sensor_state"),
  ("GAS_SENSOR_STATUS", "gas_sensor_status"),
  ("GAS_SENSOR_VALUE", "gas_sensor_value"),
  ("HUMIDIFIER", "humidifier"),
  ("HUMIDITY", "humidity"),
  ("HUMIDITY_CURRENT", "humidity_current"),
  ("HUMIDITY_INDOOR", "humidity_indoor"),
  ("HUMIDITY_SET", "humidity_set"),
  ("HUMIDITY_VALUE", "humidity_value"),
  ("IPC_WORK_MODE", "ipc_work_mode"),
  ("LED_TYPE_1", "led_type_1"),
  ("LED_TYPE_2", "led_type_2"),
  ("LED_TYPE_3", "led_type_3"),
  ("LEVEL", "level"),
  ("LEVEL_CURRENT", "level_current"),
  ("LIGHT", "light"),
  ("LIGHT_MODE", "light_mode"),
  ("LOCK", "lock"),
  ("MASTER_MODE", "master_mode"),
  ("MACH_OPERATE", "mach_operate"),
  ("MANUAL_FEED", "manual_feed"),
  ("MATERIAL", "material"),
  ("MODE", "mode"),
  ("MOODLIGHTING", "moodlighting"),
  ("MOTION_RECORD", "motion_record"),
  ("MOTION_SENSITIVITY", "motion_sensitivity"),
  ("MOTION_SWITCH", "motion_switch"),
  ("MOTION_TRACKING", "motion_tracking"),
  ("MOVEMENT_DETECT_PIC", "movement_detect_pic"),
  ("MUFFLING", "muffling"),
  ("NEAR_DETECTION", "near_detection"),
  ("OPPOSITE", "opposite"),
  ("PAUSE", "pause"),
  ("PERCENT_CONTROL", "percent_control"),
  ("PERCENT_CONTROL_2", "percent_control_2"),
  ("PERCENT_CONTROL_3", "percent_control_3"),
  ("PERCENT_STATE", "percent_state"),
  ("PERCENT_STATE_2", "percent_state_2"),
  ("PERCENT_STATE_3", "percent_state_3"),
  ("POSITION", "position"),
  ("PHASE_A", "phase_a"),
  ("PHASE_B", "phase_b"),
  ("PHASE_C", "phase_c"),
  ("PIR", "pir"),
  ("PM1", "pm1"),
  ("PM10", "pm10"),
  ("PM25", "pm25"),
  ("PM25_STATE", "pm25_state"),
  ("PM25_VALUE", "pm25_value"),
  ("POWDER_SET", "powder_set"),
  ("POWER", "power"),
  ("POWER_GO", "power_go"),
  ("POWER_TOTAL", "power_total"),
  ("PRESENCE_STATE", "presence_state"),
  ("PRESSURE_STATE", "pressure_state"),
  ("PRESSURE_VALUE", "pressure_value"),
  ("PUMP", "pump"),
  ("PUMP_RESET", "pump_reset"),
  ("OXYGEN", "oxygen"),
  ("RECORD_MODE", "record_mode"),
  ("RECORD_SWITCH", "record_switch"),
  ("RELAY_STATUS", "relay_status"),
  ("REMAIN_TIME", "remain_time"),
  ("RESET_DUSTER_CLOTH", "reset_duster_cloth"),
  ("RESET_EDGE_BRUSH", "reset_edge_brush"),
  ("RESET_FILTER", "reset_filter"),
  ("RESET_MAP", "reset_map"),
  ("RESET_ROLL_BRUSH", "reset_roll_brush"),
  ("REVERSE_ENERGY_TOTAL", "reverse_energy_total"),
  ("ROLL_BRUSH", "roll_brush"),
  ("SEEK", "seek"),
  ("SENSITIVITY", "sensitivity"),
  ("SENSOR_HUMIDITY", "sensor_humidity"),
  ("SENSOR_TEMPERATURE", "sensor_temperature"),
  ("SHAKE", "shake"),
  ("SHOCK_STATE", "shock_state"),
  ("SIREN_SWITCH", "siren_switch"),
  ("SITUATION_SET", "situation_set"),
  ("SLEEP", "sleep"),
  ("SLOW_FEED", "slow_feed"),
  ("SMOKE_SENSOR_STATE", "smoke_sensor_state"),
  ("SMOKE_SENSOR_STATUS", "smoke_sensor_status"),
  ("SMOKE_SENSOR_VALUE", "smoke_sensor_value"),
  ("SOS", "sos"),
  ("SOS_STATE", "sos_state"),
  ("SPEED", "speed"),
  ("SPRAY_MODE", "spray_mode"),
  ("START", "start"),
  ("STATUS", "status"),
  ("STERILIZATION", "sterilization"),
  ("SUCTION", "suction"),
  ("SWING", "swing"),
  ("SWITCH", "switch"),
  ("SWITCH_1", "switch_1"),
  ("SWITCH_2", "switch_2"),
  ("SWITCH_3", "switch_3"),
  ("SWITCH_4", "switch_4"),
  ("SWITCH_5", "switch_5"),
  ("SWITCH_6", "switch_6"),
  ("SWITCH_7", "switch_7"),
  ("SWITCH_8", "switch_8"),
  ("SWITCH_BACKLIGHT", "switch_backlight"),
  ("SWITCH_CHARGE", "switch_charge"),
  ("SWITCH_CONTROLLER", "switch_controller"),
  ("SWITCH_DISTURB", "switch_disturb"),
  ("SWITCH_FAN", "switch_fan"),
  ("SWITCH_HORIZONTAL", "switch_horizontal"),
  ("SWITCH_LED", "switch_led"),
  ("SWITCH_LED_1", "switch_led_1"),
  ("SWITCH_LED_2", "switch_led_2"),
  ("SWITCH_LED_3", "switch_led_3"),
  ("SWITCH_NIGHT_LIGHT", "switch_night_light"),
  ("SWITCH_SAVE_ENERGY", "switch_save_energy"),
  ("SWITCH_SOUND", "switch_sound"),
  ("SWITCH_SPRAY", "switch_spray"),
  ("SWITCH_USB1", "switch_usb1"),
  ("SWITCH_USB2", "switch_usb2"),
  ("SWITCH_USB3", "switch_usb3"),
  ("SWITCH_USB4", "switch_usb4"),
  ("SWITCH_USB5", "switch_usb5"),
  ("SWITCH_USB6", "switch_usb6"),
  ("SWITCH_VERTICAL", "switch_vertical"),
  ("SWITCH_VOICE", "switch_voice"),
  ("TARGET_DIS_CLOSEST", "target_dis_closest"),
  ("TEMP", "temp"),
  ("TEMP_BOILING_C", "temp_boiling_c"),
  ("TEMP_BOILING_F", "temp_boiling_f"),
  ("TEMP_CONTROLLER", "temp_controller"),
  ("TEMP_CURRENT", "temp_current"),
  ("TEMP_CURRENT_F", "temp_current_f"),
  ("TEMP_INDOOR", "temp_indoor"),
  ("TEMP_SET", "temp_set"),
  ("TEMP_SET_F", "temp_set_f"),
  ("TEMP_UNIT_CONVERT", "temp_unit_convert"),
  ("TEMP_VALUE", "temp_value"),
  ("TEMP_VALUE_V2", "temp_value_v2"),
  ("TEMPER_ALARM", "temper_alarm"),
  ("TIME_TOTAL", "time_total"),
  ("TIME_USE", "time_use"),
  ("TOTAL_CLEAN_AREA", "total_clean_area"),
  ("TOTAL_CLEAN_COUNT", "total_clean_count"),
  ("TOTAL_CLEAN_TIME", "total_clean_time"),
  ("TOTAL_FORWARD_ENERGY", "total_forward_energy"),
  ("TOTAL_TIME", "total_time"),
  ("TOTAL_PM", "total_pm"),
  ("TOTAL_POWER", "total_power"),
  ("TVOC", "tvoc"),
  ("UPPER_TEMP", "upper_temp"),
  ("UPPER_TEMP_F", "upper_temp_f"),
  ("UV", "uv"),
  ("VA_BATTERY", "va_battery"),
  ("VA_HUMIDITY", "va_humidity"),
  ("VA_TEMPERATURE", "va_temperature"),
  ("VOC_STATE", "voc_state"),
  ("VOC_VALUE", "voc_value"),
  ("VOICE_SWITCH", "voice_switch"),
  ("VOICE_TIMES", "voice_times"),
  ("VOLUME_SET", "volume_set"),
  ("WARM", "warm"),
  ("WARM_TIME", "warm_time"),
  ("WATER", "water"),
  ("WATER_RESET", "water_reset"),
  ("WATER_SET", "water_set"),
  ("WATERSENSOR_STATE", "watersensor_state"),
  ("WEATHER_DELAY", "weather_delay"),
  ("WET", "wet"),
  ("WINDOW_CHECK", "window_check"),
  ("WINDOW_STATE", "window_state"),
  ("WINDSPEED", "windspeed"),
  ("WIRELESS_BATTERYLOCK", "wireless_batterylock"),
  ("WIRELESS_ELECTRICITY", "wireless_electricity"),
  ("WORK_MODE", "work_mode"),
  ("WORK_POWER", "work_power")
]

/-- Modelled from the spec: the frame codec of §4.1 is absent from the supplied
source (only the constants module is present), so it is modelled from the
spec's words.  A Frame is one complete application message consisting of a
FunctionCode, a payload length and a payload (§3); `encodeFrame` serializes
the function code as two big-endian bytes, then the payload length as two
big-endian bytes (the two-byte total-length field of §4.3), then the payload
bytes. -/
def encodeFrame (code : Nat) (payload : List Nat) : List Nat :=
  code / 256 % 256 :: code % 256 ::
    payload.length / 256 % 256 :: payload.length % 256 :: payload

/-- Modelled from the spec: `decode(Frame bytes)` of §4.1 — fails (returns
`none`, the spec's MalformedFrame) when the frame is shorter than the
four-byte minimum header or when the declared payload length does not match
the actual payload size; otherwise yields the function code and the payload. -/
def decodeFrame (frame : List Nat) : Option (Nat × List Nat) :=
  match frame with
  | c1 :: c0 :: l1 :: l0 :: rest =>
    if rest.length = l1 * 256 + l0 then some (c1 * 256 + c0, rest) else none
  | _ => none

/-- Every `TuyaBLECode` value fits in the two-byte function-code field. -/
theorem TuyaBLECode.value_lt (c : TuyaBLECode) : c.value < 65536 := by
  cases c <;> decide

/-- Decoding inverts encoding for any two-byte function code and any payload
whose length fits the two-byte length field. -/
theorem decodeFrame_encodeFrame (code : Nat) (p : List Nat)
    (hc : code < 65536) (hp : p.length < 65536) :
    decodeFrame (encodeFrame code p) = some (code, p) := by
  have h1 : code / 256 % 256 * 256 + code % 256 = code := by omega
  have h2 : p.length / 256 % 256 * 256 + p.length % 256 = p.length := by omega
  simp [encodeFrame, decodeFrame, h1, h2]

/-!
## Claim theorems
-/

/-- C1: every member of `TuyaBLECode` whose name begins with `FUN_SENDER_` has
an integer value in the range 0x0000 to 0x0027 inclusive, every member whose
name begins with `FUN_RECEIVE_` has a value in the range 0x8001 to 0x8012
inclusive, and the two ranges (hence the two value sets) are disjoint. -/
theorem tuyaBLECode_sender_receiver_ranges :
    (∀ m ∈ tuyaBLECodeMembers, hasPre "FUN_SENDER_" m.1 = true → m.2 ≤ 0x27) ∧
    (∀ m ∈ tuyaBLECodeMembers, hasPre "FUN_RECEIVE_" m.1 = true →
      0x8001 ≤ m.2 ∧ m.2 ≤ 0x8012) ∧
    (∀ a b : Nat, a ≤ 0x27 → 0x8001 ≤ b ∧ b ≤ 0x8012 → a ≠ b) := by
  refine ⟨by decide, by decide, ?_⟩
  intro a b ha hb
  omega

/-- C2 counterexample: the module defines a second data-point-type enumeration,
`TuyaDataPointType`, which has a variant Json outside the spec's six variants
and lacks the spec's Bitmap variant — so not every data-point-type enumeration
the module defines consists of exactly the spec's six variants. -/
theorem tuyaDataPointType_breaks_spec_vocabulary :
    ("JSON", "Json") ∈ tuyaDataPointTypeMembers ∧
    "Json" ∉ specDataPointTypeVariants ∧
    "Bitmap" ∉ tuyaDataPointTypeMembers.map Prod.snd := by decide

/-- C2 amended: `TuyaBLEDataPointType` consists of exactly the six spec
variants Raw, Boolean, Integer(Value), String, Enum, Bitmap (its six members,
in declaration order, denote exactly the spec's six variants), whereas the
module's other data-point-type enumeration `TuyaDataPointType` consists of
exactly the six string variants Boolean, Enum, Integer, Json, Raw, String —
including Json and lacking Bitmap. -/
theorem dataPointType_vocabulary :
    TuyaBLEDataPointType.allDataPointTypes.map dtVariantName =
      specDataPointTypeVariants ∧
    (∀ t : TuyaBLEDataPointType, t ∈ TuyaBLEDataPointType.allDataPointTypes) ∧
    tuyaDataPointTypeMembers.map Prod.snd =
      ["Boolean", "Enum", "Integer", "Json", "Raw", "String"] ∧
    "Json" ∉ specDataPointTypeVariants ∧
    "Bitmap" ∉ tuyaDataPointTypeMembers.map Prod.snd := by decide

/-- C3: the retry ceiling constant `DEFAULT_ATTEMPTS` equals 0xFFFF, the
decimal integer 65535. -/
theorem DEFAULT_ATTEMPTS_value :
    DEFAULT_ATTEMPTS = 0xFFFF ∧ DEFAULT_ATTEMPTS = 65535 := by decide

/-- C4: the notify characteristic UUID begins with 00002b10, the write
characteristic UUID begins with 00002b11, the service UUID begins with
0000a201, each followed by the standard Bluetooth base UUID suffix, and
`GATT_MTU` equals 20. -/
theorem transport_constants :
    CHARACTERISTIC_NOTIFY = "00002b10" ++ BLUETOOTH_BASE_SUFFIX ∧
    CHARACTERISTIC_WRITE = "00002b11" ++ BLUETOOTH_BASE_SUFFIX ∧
    SERVICE_UUID = "0000a201" ++ BLUETOOTH_BASE_SUFFIX ∧
    hasPre "00002b10" CHARACTERISTIC_NOTIFY = true ∧
    hasPre "00002b11" CHARACTERISTIC_WRITE = true ∧
    hasPre "0000a201" SERVICE_UUID = true ∧
    GATT_MTU = 20 := by decide

/-- C5: the timeout constant `RESPONSE_WAIT_TIMEOUT` equals 60. -/
theorem RESPONSE_WAIT_TIMEOUT_value : RESPONSE_WAIT_TIMEOUT = 60 := by decide

/-- C6: `MANUFACTURER_DATA_ID` equals 0x07D0, the decimal 2000, and fits in
16 bits. -/
theorem MANUFACTURER_DATA_ID_value :
    MANUFACTURER_DATA_ID = 0x07D0 ∧ MANUFACTURER_DATA_ID = 2000 ∧
    MANUFACTURER_DATA_ID < 2 ^ 16 := by decide

/-- C7: for every valid FunctionCode `c` and every payload `p` whose length
fits the frame's two-byte length field (which subsumes any payload of length
at most MTU times the fragment count, the fragment header's total-length field
being two bytes), decoding the frame produced by encoding yields back exactly
the function code and the payload. -/
theorem decode_encode_roundtrip (c : TuyaBLECode) (p : List Nat)
    (hp : p.length < 65536) :
    decodeFrame (encodeFrame c.value p) = some (c.value, p) :=
  decodeFrame_encodeFrame c.value p c.value_lt hp

/-- C7 witness: the round trip at the concrete function code FUN_SENDER_DPS
and payload [2, 3, 4]. -/
theorem decode_encode_roundtrip_witness :
    ([2, 3, 4] : List Nat).length < 65536 ∧
    decodeFrame (encodeFrame (TuyaBLECode.value TuyaBLECode.FUN_SENDER_DPS) [2, 3, 4]) =
      some (TuyaBLECode.value TuyaBLECode.FUN_SENDER_DPS, [2, 3, 4]) :=
  ⟨by decide, decode_encode_roundtrip TuyaBLECode.FUN_SENDER_DPS [2, 3, 4] (by decide)⟩

/-- C8: in `TuyaDataPointCode` the name-to-value mapping is not injective —
the distinct names FILTER and FILTER_LIFE are both assigned the string value
"filter" — and under Python enum aliasing FILTER_LIFE denotes the same
canonical member as FILTER, so looking up the value "filter" yields FILTER
and cannot distinguish the two names. -/
theorem tuyaDataPointCode_filter_alias :
    ("FILTER", "filter") ∈ tuyaDataPointCodeMembers ∧
    ("FILTER_LIFE", "filter") ∈ tuyaDataPointCodeMembers ∧
    ("FILTER" : String) ≠ "FILTER_LIFE" ∧
    strEnumCanonical tuyaDataPointCodeMembers "FILTER_LIFE" = some "FILTER" ∧
    strEnumCanonical tuyaDataPointCodeMembers "FILTER" = some "FILTER" ∧
    strEnumLookup tuyaDataPointCodeMembers "filter" = some "FILTER" := by decide

/-- C9 counterexample: `TuyaBLECode` has exactly 20 members, not 21 — the
member list is complete (every constructor occurs in it) and its length is
20. -/
theorem tuyaBLECode_not_21_members :
    (∀ c : TuyaBLECode, c ∈ TuyaBLECode.allCodes) ∧
    tuyaBLECodeMembers.length = 20 ∧ (20 : Nat) ≠ 21 := by decide

/-- C9 amended: the 20 members of `TuyaBLECode` have pairwise distinct integer
values, so value-to-member lookup is a well-defined inverse: for every member
`c`, looking up `c`'s value yields `c`. -/
theorem tuyaBLECode_values_distinct :
    tuyaBLECodeMembers.length = 20 ∧
    (tuyaBLECodeMembers.map Prod.snd).Nodup ∧
    (∀ c : TuyaBLECode, TuyaBLECode.ofValue c.value = some c) := by decide

/-- C10: the numeric wire values of `TuyaBLEDataPointType` are exactly the
consecutive integers 0 through 5 in declaration order — DT_RAW = 0, DT_BOOL =
1, DT_VALUE = 2, DT_STRING = 3, DT_ENUM = 4, DT_BITMAP = 5 — with no gaps and
no duplicates. -/
theorem tuyaBLEDataPointType_values_consecutive :
    TuyaBLEDataPointType.allDataPointTypes.map TuyaBLEDataPointType.value =
      List.range 6 ∧
    (∀ t : TuyaBLEDataPointType, t ∈ TuyaBLEDataPointType.allDataPointTypes) ∧
    (TuyaBLEDataPointType.allDataPointTypes.map TuyaBLEDataPointType.value).Nodup := by
  decide

end TuyaBLE
